import Mathlib

/-!
Shallow embedding of the Modbus-RTU probe/fuzz toolkit (directories
`modbus/` of the repository) and proofs about it.

Bytes are modelled as `Nat` (the Python scripts manipulate `bytes`
objects, whose elements are integers in `[0, 255]`); byte strings are
`List Nat`.  Where `struct.pack` can fail on an out-of-range field the
builder returns an `Option`, mirroring the `struct.error` exception.
Serial reads with timeout are modelled by `List.take` on the list of
bytes available on the line: `ser.read n` returns `min n available`
bytes.
-/

set_option maxRecDepth 100000

namespace Modbus

/-- One shift/XOR iteration of the CRC16/Modbus inner loop:
`crc = (crc >> 1) ^ 0xA001 if crc & 1 else crc >> 1`
(`reg_map_sweep.crc16`, `rs485_fuzz.crc`, `rw17_overflow.crc`,
`modbus_write_injector.crc16`, `broadcast_writer.crc` all contain this
identical line). -/
def crcStep (c : Nat) : Nat :=
  if c &&& 1 = 1 then (c >>> 1) ^^^ 0xA001 else c >>> 1

/-- Process one byte: `crc ^= b` followed by eight `crcStep` iterations. -/
def crcByte (c b : Nat) : Nat :=
  crcStep (crcStep (crcStep (crcStep (crcStep (crcStep (crcStep (crcStep (c ^^^ b))))))))

/-- `crc16(data)`: fold `crcByte` over the bytes starting from `0xFFFF`,
masked to 16 bits at the end (`return crc & 0xFFFF`). -/
def crc16 (data : List Nat) : Nat :=
  (data.foldl crcByte 0xFFFF) &&& 0xFFFF

/-- `le_crc(data) = struct.pack("<H", crc16(data))`: the CRC as two bytes,
little-endian. -/
def le_crc (data : List Nat) : List Nat :=
  [crc16 data % 256, crc16 data / 256]

/-- `rs485_fuzz.crc` packs the same CRC16 little-endian; it is byte-for-byte
the same function as `le_crc`. -/
def crc (frame : List Nat) : List Nat := le_crc frame

/-- Spec §4.1 `appendCrc`: the pattern `body + le_crc(body)` used by every
frame builder in the repository. -/
def appendCrc (b : List Nat) : List Nat :=
  b ++ le_crc b

/-- Spec §4.1 `verifyCrc`: the check `le_crc(frame[:-2]) == frame[-2:]`
performed by `reg_map_sweep.read_reply` and `rs485_fuzz.main`.
Python `frame[:-2]` is `take (length - 2)` and `frame[-2:]` is
`drop (length - 2)` (with `Nat` truncated subtraction both agree with the
Python slices also on frames shorter than two bytes). -/
def verifyCrc (frame : List Nat) : Bool :=
  le_crc (frame.take (frame.length - 2)) == frame.drop (frame.length - 2)

theorem verifyCrc_eq_true_iff (frame : List Nat) :
    verifyCrc frame = true ↔
      le_crc (frame.take (frame.length - 2)) = frame.drop (frame.length - 2) := by
  simp [verifyCrc]

/-- `le_crc` always produces exactly two bytes. -/
theorem length_le_crc (data : List Nat) : (le_crc data).length = 2 := rfl

/-- Round-trip helper: appending the little-endian CRC and then verifying
always succeeds, for an arbitrary byte list. -/
theorem verifyCrc_append_le_crc (b : List Nat) :
    verifyCrc (b ++ le_crc b) = true := by
  have hlen : (b ++ le_crc b).length - 2 = b.length := by
    simp [length_le_crc]
  rw [verifyCrc_eq_true_iff, hlen, List.take_left' rfl, List.drop_left' rfl]

/-- Claim C2: for every byte sequence `b`, verifying the CRC of the frame
obtained by appending the little-endian CRC16 of `b` to `b` succeeds:
`verifyCrc (appendCrc b) = true`. -/
theorem crc_roundtrip (b : List Nat) : verifyCrc (appendCrc b) = true := by
  rw [appendCrc]
  exact verifyCrc_append_le_crc b

set_option maxRecDepth 40000 in
/-- Claim C8: the CRC16/Modbus function applied to
`[0x01, 0x03, 0x00, 0x00, 0x00, 0x01]` returns `0x0A84`. -/
theorem crc16_test_vector :
    crc16 [0x01, 0x03, 0x00, 0x00, 0x00, 0x01] = 0x0A84 := by
  decide

/-!
## Register enumerator (`reg_map_sweep.py`)

`read_reply` reads a reply off the serial line.  The transport is modelled
by the list `buf` of bytes that the line will deliver before the timeout:
`ser.read n` yields `buf.take n`, leaving `buf.drop n`.
-/

/-- `reg_map_sweep.read_reply`: returns the two data bytes if the reply
passes every check, else `none`.
```
hdr = ser.read(3); if len(hdr) < 3: return None
sid, func, bc = hdr
payload = ser.read(bc + 2); frame = hdr + payload
if len(payload) != bc + 2: return None
if le_crc(frame[:-2]) != frame[-2:]: return None
if sid != 1 or func != 3 or bc != 2: return None
return frame[3:-2]
```
The `expected_reg` argument is declared in the source but never used in
the body. -/
def read_reply (expected_reg : Nat) (buf : List Nat) : Option (List Nat) :=
  let hdr := buf.take 3
  if hdr.length < 3 then none
  else
    let sid := hdr.getD 0 0
    let func := hdr.getD 1 0
    let bc := hdr.getD 2 0
    let payload := (buf.drop 3).take (bc + 2)
    let frame := hdr ++ payload
    if payload.length ≠ bc + 2 then none
    else if le_crc (frame.take (frame.length - 2)) ≠ frame.drop (frame.length - 2) then none
    else if sid ≠ 1 ∨ func ≠ 3 ∨ bc ≠ 2 then none
    else some ((frame.take (frame.length - 2)).drop 3)

/-- Claim C1: the enumerator accepts a reply (returns `some`) **iff** the
full declared byte count arrived before the timeout
(`buf.getD 2 0 + 5 ≤ buf.length`: 3 header bytes plus `byteCount + 2`
more), the CRC over the whole reply frame validates, the slave id is 1,
the function code is 3 and the byte-count field is 2; on any failure it
returns `none`, so no value is ever reported from an incomplete,
CRC-invalid or unmatched reply. -/
theorem read_reply_accepts_iff (expected_reg : Nat) (buf : List Nat) :
    (read_reply expected_reg buf).isSome = true ↔
      (buf.getD 2 0 + 5 ≤ buf.length ∧
       verifyCrc (buf.take (buf.getD 2 0 + 5)) = true ∧
       buf.getD 0 0 = 1 ∧ buf.getD 1 0 = 3 ∧ buf.getD 2 0 = 2) := by
  match buf with
  | [] => simp [read_reply]
  | [s] => simp [read_reply]
  | [s, f] => simp [read_reply]
  | s :: f :: b :: rest =>
    have htake : (s :: f :: b :: rest).take (b + 5) = s :: f :: b :: rest.take (b + 2) := by
      have h5 : b + 5 = (b + 2) + 1 + 1 + 1 := by omega
      rw [h5]
      rfl
    by_cases hA : (rest.take (b + 2)).length = b + 2
    · have hlen : b + 5 ≤ (s :: f :: b :: rest).length := by
        simp only [List.length_take, List.length_cons] at hA ⊢
        omega
      simp only [read_reply, List.take_succ_cons, List.take_zero, List.drop_succ_cons,
        List.drop_zero, List.length_cons, List.length_nil, List.getD_cons_zero,
        List.getD_cons_succ, htake]
      rw [if_neg (by omega), if_neg (by simp [hA]), List.cons_append, List.cons_append,
        List.cons_append, List.nil_append]
      have hframe : (s :: f :: b :: rest.take (b + 2)).length - 2 = b + 3 := by
        simp only [List.length_cons, hA]
        omega
      rw [hframe]
      have hcrc : verifyCrc (s :: f :: b :: rest.take (b + 2)) = true ↔
          le_crc ((s :: f :: b :: rest.take (b + 2)).take (b + 3)) =
            (s :: f :: b :: rest.take (b + 2)).drop (b + 3) := by
        rw [verifyCrc_eq_true_iff, hframe]
      by_cases hC : le_crc ((s :: f :: b :: rest.take (b + 2)).take (b + 3)) =
          (s :: f :: b :: rest.take (b + 2)).drop (b + 3)
      · rw [if_neg (by simpa using hC)]
        by_cases hM : s = 1 ∧ f = 3 ∧ b = 2
        · rw [if_neg (by tauto)]
          simp only [Option.isSome_some, true_iff]
          exact ⟨hlen, hcrc.mpr hC, hM.1, hM.2.1, hM.2.2⟩
        · rw [if_pos (by tauto)]
          simp only [Option.isSome_none, Bool.false_eq_true, false_iff]
          intro hall
          exact hM ⟨hall.2.2.1, hall.2.2.2.1, hall.2.2.2.2⟩
      · rw [if_pos (by simpa using hC)]
        simp only [Option.isSome_none, Bool.false_eq_true, false_iff]
        intro hall
        exact hC (hcrc.mp hall.2.1)
    · have hlen : ¬ (b + 5 ≤ (s :: f :: b :: rest).length) := by
        simp only [List.length_take, List.length_cons] at hA ⊢
        omega
      simp only [read_reply, List.take_succ_cons, List.take_zero, List.drop_succ_cons,
        List.drop_zero, List.length_cons, List.length_nil, List.getD_cons_zero,
        List.getD_cons_succ]
      rw [if_neg (by omega), if_pos (by simpa using hA)]
      simp only [Option.isSome_none, Bool.false_eq_true, false_iff]
      intro hall
      exact hlen hall.1

/-- Claim C9: `read_reply` never inspects its `expected_reg` argument:
for every fixed sequence of incoming bytes the result is identical for
any two requested register addresses (two-run independence). -/
theorem read_reply_ignores_expected_reg (r₁ r₂ : Nat) (buf : List Nat) :
    read_reply r₁ buf = read_reply r₂ buf := rfl

/-!
## Frame builders (`modbus_write_injector.py`, `rw17_overflow.py`)

`struct.pack` raises `struct.error` when a field does not fit its format
code; the builders therefore return `Option (List Nat)`.  The random
payload bytes (`random.getrandbits(8)` / `os.urandom`) are passed in as a
parameter. -/

/-- `struct.pack(">B", n)`: one unsigned byte; `struct.error` (`none`) when
`n` is out of range. -/
def packB (n : Nat) : Option (List Nat) :=
  if n < 256 then some [n] else none

/-- `struct.pack(">H", n)`: one unsigned 16-bit, big-endian; `struct.error`
(`none`) when `n` is out of range. -/
def packH (n : Nat) : Option (List Nat) :=
  if n < 65536 then some [n / 256, n % 256] else none

/-- `modbus_write_injector.build_wide(slave, start, qty=125)`:
`body = pack(">B B H H B", slave, 0x10, start, qty, qty*2) + payload`,
`return body + le_crc(body)`, where `payload` is `qty*2` random bytes. -/
def build_wide (slave start qty : Nat) (payload : List Nat) : Option (List Nat) := do
  let f1 ← packB slave
  let f2 ← packB 0x10
  let f3 ← packH start
  let f4 ← packH qty
  let f5 ← packB (qty * 2)
  let body := f1 ++ f2 ++ f3 ++ f4 ++ f5 ++ payload
  return body ++ le_crc body

/-- `modbus_write_injector.build_huge(slave, start, claim=250, actual_bytes=600)`:
`body = pack(">B B H H B", slave, 0x10, start, claim, claim*2) + payload`,
`return body + le_crc(body)`, where `payload` is `actual_bytes` random
bytes (generated before the pack succeeds or fails, hence passed in as a
parameter of length `actual_bytes`). -/
def build_huge (slave start claim : Nat) (payload : List Nat) : Option (List Nat) := do
  let f1 ← packB slave
  let f2 ← packB 0x10
  let f3 ← packH start
  let f4 ← packH claim
  let f5 ← packB (claim * 2)
  let body := f1 ++ f2 ++ f3 ++ f4 ++ f5 ++ payload
  return body ++ le_crc body

/-- `rw17_overflow.py` frame (built once at module level):
`body = pack(">B B H H H", 1, 0x17, 0x0050, 1, WR) + pack(">B", WR*2) + payload`
with `WR = 125` and `payload = os.urandom(WR*2)`;
`frame = body + crc(body)`. -/
def rw17_frame (payload : List Nat) : Option (List Nat) := do
  let f1 ← packB 1
  let f2 ← packB 0x17
  let f3 ← packH 0x0050
  let f4 ← packH 1
  let f5 ← packH 125
  let f6 ← packB (125 * 2)
  let body := f1 ++ f2 ++ f3 ++ f4 ++ f5 ++ f6 ++ payload
  return body ++ crc body

/-- Claim C7: `build_wide 1 0x51 125` (the defaults of the `--wide` mode)
produces, for every 250-byte random payload, a frame of exactly
`1+1+2+2+1+250+2 = 259` bytes whose byte-count field (offset 6) is
`0xFA`. -/
theorem build_wide_length_and_count (payload : List Nat)
    (hpl : payload.length = 250) :
    ∃ fr, build_wide 1 0x51 125 payload = some fr ∧
      fr.length = 259 ∧ fr.getD 6 0 = 0xFA := by
  refine ⟨[1, 0x10, 0, 0x51, 0, 125, 250] ++ payload ++
    le_crc ([1, 0x10, 0, 0x51, 0, 125, 250] ++ payload), ?_, ?_, ?_⟩
  · simp [build_wide, packB, packH]
  · simp [length_le_crc, hpl]
  · rfl

theorem build_wide_length_and_count_witness :
    ∃ fr, build_wide 1 0x51 125 (List.replicate 250 0) = some fr ∧
      fr.length = 259 ∧ fr.getD 6 0 = 0xFA :=
  build_wide_length_and_count (List.replicate 250 0) (by simp)

/-- Claim C5 (code bug): `build_huge` at its documented default input
(`slave=1, start=0x51, claim=250, actual_bytes=600`) never produces a
frame at all: `claim*2 = 500` does not fit the `">B"` byte-count field,
so `struct.pack` raises `struct.error` — the modelled builder returns
`none` for every 600-byte payload, contradicting the docstring
"ByteCount 0xFA (250 reg) but ship far more". -/
theorem build_huge_default_raises (payload : List Nat)
    (hpl : payload.length = 600) :
    build_huge 1 0x51 250 payload = none := by
  simp [build_huge, packB, packH]

theorem build_huge_default_raises_witness :
    (List.replicate 600 0).length = 600 ∧
      build_huge 1 0x51 250 (List.replicate 600 (0 : Nat)) = none :=
  ⟨by simp, build_huge_default_raises (List.replicate 600 0) (by simp)⟩

/-- Claim C6 (code bug): the 0x17 frame of `rw17_overflow.py` packs only
**three** 16-bit header fields (`0x0050`, `1`, `125`) before the byte
count, so for every 250-byte payload the frame is `261` bytes long and
carries the byte-count `0xFA` at offset 8 — whereas the claimed layout
`id, 0x17, readStart:u16, readQty:u16, writeStart:u16, writeQty:u16,
writeByteCount:u8, writeData` needs four 16-bit fields, `263` bytes in
total, with the byte count at offset 10.  One 16-bit field
(writeStart or writeQty) is missing, so the emitted frame is not a legal
0x17 request, contradicting the docstring "Legal but maximal". -/
theorem rw17_frame_missing_field (payload : List Nat)
    (hpl : payload.length = 250) :
    ∃ fr, rw17_frame payload = some fr ∧
      fr.length = 261 ∧ fr.getD 8 0 = 0xFA := by
  refine ⟨[1, 0x17, 0, 0x50, 0, 1, 0, 125, 250] ++ payload ++
    crc ([1, 0x17, 0, 0x50, 0, 1, 0, 125, 250] ++ payload), ?_, ?_, ?_⟩
  · simp [rw17_frame, packB, packH]
  · simp [crc, length_le_crc, hpl]
  · rfl

theorem rw17_frame_missing_field_witness :
    ∃ fr, rw17_frame (List.replicate 250 0) = some fr ∧
      fr.length = 261 ∧ fr.getD 8 0 = 0xFA :=
  rw17_frame_missing_field (List.replicate 250 0) (by simp)

/-!
## RTU responder / fuzzer (`rs485_fuzz.py`)

One iteration of the `while True` loop in `main` is modelled by `step`.
The serial line is again a list of available bytes; `ser.read n` takes
`min n available` bytes.  The pseudo-random draws are supplied as oracle
parameters: `rv` for the 16-bit value of `good_response`
(`random.randint(0, 0xFFFF)`, so always in range for `">H"`), `rp` for
the payload of `fuzz_random`.
-/

/-- The four fuzz flavours, `FUZZ_STYLES = ("crc", "func", "big", "rand")`. -/
inductive FuzzStyle
  | crc
  | func
  | big
  | rand
deriving DecidableEq

/-- The tuple `FUZZ_STYLES` in its source order (`fuzz_cycle`). -/
def FUZZ_STYLES : List FuzzStyle :=
  [FuzzStyle.crc, FuzzStyle.func, FuzzStyle.big, FuzzStyle.rand]

/-- Command-line configuration of the responder: slave id, fuzz interval
(`0` = never) and optional fixed fuzz style (`none` = rotate). -/
structure Opts where
  id : Nat
  fuzz : Nat
  fuzz_type : Option FuzzStyle

/-- `good_response()`: `body = pack(">BBBH", SLAVE_ID, 0x03, 0x02, val)`,
`return body + crc(body)`, with `val` a fresh random 16-bit value. -/
def good_response (id rv : Nat) : List Nat :=
  let body := [id, 0x03, 0x02, rv / 256, rv % 256]
  body ++ crc body

/-- `fuzz_crc(frame)`: keep the body, zero the two CRC bytes. -/
def fuzz_crc (frame : List Nat) : List Nat :=
  frame.take (frame.length - 2) ++ [0x00, 0x00]

/-- `fuzz_illegal_function()`: `body = pack(">BBBB", SLAVE_ID, 0x04, 0, 0)`
plus CRC. -/
def fuzz_illegal_function (id : Nat) : List Nat :=
  let body := [id, 0x04, 0x00, 0x00]
  body ++ crc body

/-- `fuzz_big_count()`: `BIG = 252`,
`body = pack(">BBBH", SLAVE_ID, 0x03, BIG, 0)`,
`payload = bytes(range(256))[:BIG]`, body + payload + CRC. -/
def fuzz_big_count (id : Nat) : List Nat :=
  let body := [id, 0x03, 252, 0x00, 0x00]
  let payload := List.range 252
  body ++ payload ++ crc (body ++ payload)

/-- `fuzz_random()`: slave id byte followed by a random payload (5–50
bytes, supplied as the oracle `rp`) with a correct CRC. -/
def fuzz_random (id : Nat) (rp : List Nat) : List Nat :=
  let body := id :: rp
  body ++ crc body

/-- `FUZZ_MAP`: dispatch a style to its builder (`"crc"` is the only one
that uses the incoming request frame). -/
def fuzzFrame (id : Nat) (style : FuzzStyle) (req rp : List Nat) : List Nat :=
  match style with
  | FuzzStyle.crc => fuzz_crc req
  | FuzzStyle.func => fuzz_illegal_function id
  | FuzzStyle.big => fuzz_big_count id
  | FuzzStyle.rand => fuzz_random id rp

/-- One iteration of the `main` loop of `rs485_fuzz.py`.  Returns the
bytes written on the line, the new value of the `poll` counter, and the
bytes left unread on the line.
```
if (head := ser.read(1)) != bytes([SLAVE_ID]): continue
req = head + ser.read(7)
if len(req) < 8: continue
if crc(req[:-2]) != req[-2:]: continue        # bad CRC: no reply
func, reg, cnt = req[1], *struct.unpack(">HH", req[2:6])
if opts.fuzz and poll % opts.fuzz == 0:
    style = opts.fuzz_type or fuzz_cycle[(poll // opts.fuzz) % 4]
    ser.write(FUZZ_MAP[style](req)); poll += 1; continue
if func == 0x03 and reg == POLL_REG and cnt == POLL_CNT:
    ser.write(good_response())
else:
    exc = pack(">BBB", SLAVE_ID, func | 0x80, 0x02); ser.write(exc + crc(exc))
poll += 1
```
-/
def step (opts : Opts) (poll : Nat) (input : List Nat) (rv : Nat) (rp : List Nat) :
    List Nat × Nat × List Nat :=
  match input with
  | [] => ([], poll, [])
  | head :: t =>
    if head ≠ opts.id then ([], poll, t)
    else
      let req := head :: t.take 7
      if req.length < 8 then ([], poll, t.drop 7)
      else if crc (req.take (req.length - 2)) ≠ req.drop (req.length - 2) then
        ([], poll, t.drop 7)
      else
        let func := req.getD 1 0
        let reg := req.getD 2 0 * 256 + req.getD 3 0
        let cnt := req.getD 4 0 * 256 + req.getD 5 0
        if opts.fuzz ≠ 0 ∧ poll % opts.fuzz = 0 then
          let style := opts.fuzz_type.getD (FUZZ_STYLES.getD ((poll / opts.fuzz) % 4) FuzzStyle.crc)
          (fuzzFrame opts.id style req rp, poll + 1, t.drop 7)
        else if func = 0x03 ∧ reg = 0x0051 ∧ cnt = 0x0001 then
          (good_response opts.id rv, poll + 1, t.drop 7)
        else
          let exc := [opts.id, func ||| 0x80, 0x02]
          (exc ++ crc exc, poll + 1, t.drop 7)

/-- The expected poll request of the DSE899 (`slave 1, func 0x03,
reg 0x0051, qty 1` plus its correct CRC): the frame `main` answers with
`good_response`. -/
def reqPoll51 : List Nat := appendCrc [1, 0x03, 0x00, 0x51, 0x00, 0x01]

/-- Run `n` iterations of the `main` loop.  `rvs` is the stream of random
16-bit draws (one consumed per iteration), `rp` the random-payload
oracle for `fuzz_random`.  Returns the list of frames written (one entry
per iteration, `[]` when the iteration wrote nothing) and the final value
of the `poll` counter. -/
def runN (opts : Opts) : Nat → Nat → List Nat → List Nat → List Nat → List (List Nat) × Nat
  | 0, poll, _, _, _ => ([], poll)
  | n + 1, poll, input, rvs, rp =>
    let r := step opts poll input (rvs.headD 0) rp
    let rest := runN opts n r.2.1 r.2.2 rvs.tail rp
    (r.1 :: rest.1, rest.2)

theorem runN_zero (opts : Opts) (poll : Nat) (input rvs rp : List Nat) :
    runN opts 0 poll input rvs rp = ([], poll) := rfl

theorem runN_succ (opts : Opts) (n poll : Nat) (input rvs rp : List Nat) :
    runN opts (n + 1) poll input rvs rp =
      (let r := step opts poll input (rvs.headD 0) rp
       let rest := runN opts n r.2.1 r.2.2 rvs.tail rp
       (r.1 :: rest.1, rest.2)) := rfl

/-- Behaviour of one loop iteration on the expected poll under the
default fault policy `everyNth = 3`, rotating styles: the request is
answered; it is faulted exactly when the pre-increment counter satisfies
`poll % 3 = 0`, with the style drawn from the cycle at `(poll / 3) % 4`;
the counter increments either way. -/
theorem step_valid_poll_rotate (poll rv : Nat) (rp rest : List Nat) :
    step ⟨1, 3, none⟩ poll (reqPoll51 ++ rest) rv rp =
      ((if poll % 3 = 0 then
          fuzzFrame 1 (FUZZ_STYLES.getD (poll / 3 % 4) FuzzStyle.crc) reqPoll51 rp
        else good_response 1 rv), poll + 1, rest) := by
  have h : reqPoll51 = [1, 3, 0, 0x51, 0, 1, 213, 219] := by decide
  have hc : crc [1, 3, 0, 0x51, 0, 1] = [213, 219] := by decide
  rw [h]
  by_cases hp : poll % 3 = 0
  · simp [step, hc, hp]
  · simp [step, hc, hp]

theorem step_valid_poll_rotate_nil (poll rv : Nat) (rp : List Nat) :
    step ⟨1, 3, none⟩ poll reqPoll51 rv rp =
      ((if poll % 3 = 0 then
          fuzzFrame 1 (FUZZ_STYLES.getD (poll / 3 % 4) FuzzStyle.crc) reqPoll51 rp
        else good_response 1 rv), poll + 1, []) := by
  conv_lhs => rw [← List.append_nil reqPoll51]
  exact step_valid_poll_rotate poll rv rp []

/-- Claim C4, counterexample: with `everyNth = 3` (default rotating
styles) the **first** of the 9 consecutive valid polls already receives a
faulted reply — the CRC-zeroed frame, whose CRC does not verify, so it is
neither a normal nor an exception reply.  The claim as stated says the
first faulted reply is the 3rd poll. -/
theorem fuzz_first_poll_already_faulted :
    (step ⟨1, 3, none⟩ 0 reqPoll51 0 []).1 = fuzz_crc reqPoll51 ∧
      verifyCrc (step ⟨1, 3, none⟩ 0 reqPoll51 0 []).1 = false := by
  decide

/-- Claim C4, amended: with `everyNth = 3` and the default rotating
styles, across 9 consecutive valid polls exactly 3 replies are faulted,
namely the 1st, 4th and 7th — those whose pre-increment counter value
`0, 3, 6` satisfies `counter % 3 = 0` (the counter starts at 0 and is
tested before it is incremented); all other polls receive the normal
reply, and the counter, incremented on every completed request, ends at
9.  The three faulted replies take the rotated styles `crc`, `func`,
`big`. -/
theorem fuzz_schedule_every_third (v₀ v₁ v₂ v₃ v₄ v₅ v₆ v₇ v₈ : Nat) (rp : List Nat) :
    runN ⟨1, 3, none⟩ 9 0
        (reqPoll51 ++ (reqPoll51 ++ (reqPoll51 ++ (reqPoll51 ++ (reqPoll51 ++
          (reqPoll51 ++ (reqPoll51 ++ (reqPoll51 ++ reqPoll51))))))))
        [v₀, v₁, v₂, v₃, v₄, v₅, v₆, v₇, v₈] rp =
      ([fuzz_crc reqPoll51, good_response 1 v₁, good_response 1 v₂,
        fuzz_illegal_function 1, good_response 1 v₄, good_response 1 v₅,
        fuzz_big_count 1, good_response 1 v₇, good_response 1 v₈], 9) := by
  simp only [runN_succ, runN_zero, step_valid_poll_rotate, step_valid_poll_rotate_nil,
    List.headD_cons, List.tail_cons]
  norm_num [FUZZ_STYLES, fuzzFrame]

/-- Claim C3: a received 8-byte request addressed to the responder whose
trailing two bytes are not the little-endian CRC16 of its first six bytes
draws no reply at all — the responder writes nothing, leaves the poll
counter untouched, and goes back to waiting for an address byte at the
next unread input position. -/
theorem responder_silent_on_bad_crc (opts : Opts) (poll rv : Nat)
    (rp rest : List Nat) (b₁ b₂ b₃ b₄ b₅ b₆ b₇ : Nat)
    (hcrc : crc [opts.id, b₁, b₂, b₃, b₄, b₅] ≠ [b₆, b₇]) :
    step opts poll (opts.id :: b₁ :: b₂ :: b₃ :: b₄ :: b₅ :: b₆ :: b₇ :: rest) rv rp
      = ([], poll, rest) := by
  simp only [step]
  rw [if_neg (by simp)]
  simp only [List.take_succ_cons, List.drop_succ_cons]
  rw [if_neg (by simp [List.length_take]), if_pos (by simpa using hcrc)]
  simp

theorem responder_silent_on_bad_crc_witness :
    crc [1, 3, 0, 0x51, 0, 1] ≠ [0, 0] ∧
      step ⟨1, 0, none⟩ 0 [1, 3, 0, 0x51, 0, 1, 0, 0] 0 []
        = ([], 0, []) :=
  ⟨by decide, responder_silent_on_bad_crc ⟨1, 0, none⟩ 0 0 [] [] 3 0 0x51 0 1 0 0 (by decide)⟩

/-- Claim C10: on the non-fault path every frame the responder writes
(the normal reply and the exception reply alike) ends in the
little-endian CRC16 of all preceding bytes, so `verifyCrc` holds on every
non-empty output.  The fuzz branch is excluded by the hypothesis. -/
theorem responder_nonfault_output_crc_valid (opts : Opts) (poll rv : Nat)
    (input rp : List Nat)
    (hnofuzz : ¬ (opts.fuzz ≠ 0 ∧ poll % opts.fuzz = 0)) :
    (step opts poll input rv rp).1 = [] ∨
      verifyCrc (step opts poll input rv rp).1 = true := by
  match input with
  | [] => exact Or.inl rfl
  | head :: t =>
    simp only [step]
    by_cases h1 : head ≠ opts.id
    · rw [if_pos h1]; exact Or.inl rfl
    · rw [if_neg h1]
      by_cases h2 : (head :: t.take 7).length < 8
      · rw [if_pos h2]; exact Or.inl rfl
      · rw [if_neg h2]
        by_cases h3 : crc ((head :: t.take 7).take ((head :: t.take 7).length - 2))
            ≠ (head :: t.take 7).drop ((head :: t.take 7).length - 2)
        · rw [if_pos h3]; exact Or.inl rfl
        · rw [if_neg h3, if_neg hnofuzz]
          by_cases h4 : (head :: t.take 7).getD 1 0 = 0x03 ∧
              (head :: t.take 7).getD 2 0 * 256 + (head :: t.take 7).getD 3 0 = 0x0051 ∧
              (head :: t.take 7).getD 4 0 * 256 + (head :: t.take 7).getD 5 0 = 0x0001
          · rw [if_pos h4]
            exact Or.inr (verifyCrc_append_le_crc _)
          · rw [if_neg h4]
            exact Or.inr (verifyCrc_append_le_crc _)

theorem responder_nonfault_output_crc_valid_witness :
    (¬ ((0 : Nat) ≠ 0 ∧ 0 % 0 = 0)) ∧
      ((step ⟨1, 0, none⟩ 0 [1, 3, 0, 0x51, 0, 1, 213, 219] 0x1234 []).1 = [] ∨
        verifyCrc (step ⟨1, 0, none⟩ 0 [1, 3, 0, 0x51, 0, 1, 213, 219] 0x1234 []).1 = true) :=
  ⟨by decide,
    responder_nonfault_output_crc_valid ⟨1, 0, none⟩ 0 0x1234
      [1, 3, 0, 0x51, 0, 1, 213, 219] [] (by decide)⟩

end Modbus
